import Mathlib

/-!
Shallow embedding of the passport-photo web application's core pipeline:
photo validation (face checks over detected landmarks), geometric photo
processing (crop, resize, sharpen, contrast), and print-layout generation.

JavaScript numbers are modelled as exact rationals (`ℚ`); the only
transcendental computation (`Math.atan2` in the roll-angle estimate) is
modelled over `ℝ`.  `Uint8ClampedArray` stores are modelled by clamping to
`[0, 255]` and rounding ties-to-even, per the ECMAScript `ToUint8Clamp`
conversion.  Pixel buffers (`ImageData.data`) are modelled as total
functions from flat byte index to byte value.
-/

namespace PassportPhoto

/-- JS `Math.round` for the nonnegative magnitudes used here:
`Math.round(x) = ⌊x + 0.5⌋`. -/
def jsRound (q : ℚ) : ℤ := Int.floor (q + 1/2)

/-- ECMAScript ties-to-even rounding used by `Uint8ClampedArray` stores. -/
def roundTiesToEven (q : ℚ) : ℤ :=
  let n := Int.floor q
  let f := q - n
  if f < 1/2 then n
  else if 1/2 < f then n + 1
  else if n % 2 = 0 then n else n + 1

/-- ECMAScript `ToUint8Clamp`: clamp to `[0, 255]`, then round ties-to-even. -/
def toUint8Clamp (q : ℚ) : ℕ :=
  (roundTiesToEven (max 0 (min 255 q))).toNat

/-- Fixed print resolution, `const DPI = 300`. -/
def DPI : ℚ := 300

/-- `const MM_TO_INCH = 0.0393701`. -/
def MM_TO_INCH : ℚ := 0.0393701

/-- `const CM_TO_INCH = 0.393701`. -/
def CM_TO_INCH : ℚ := 0.393701

/-- A 2-D landmark point (face-api.js `Point`). -/
structure Point where
  x : ℚ
  y : ℚ
deriving DecidableEq

/-- Default point used to model array indexing; the upstream detector
contract fixes the group sizes (6 points per eye, 20 mouth points), so the
default is never reached on contract-conforming inputs. -/
def pt0 : Point := ⟨0, 0⟩

/-- A face bounding box `{x, y, width, height}` in source-image pixels. -/
structure Box where
  x : ℚ
  y : ℚ
  width : ℚ
  height : ℚ
deriving DecidableEq

/-- The landmark groups the validator reads (face-api.js `getLeftEye`,
`getRightEye`, `getNose`, `getMouth`). -/
structure Landmarks where
  leftEye : List Point
  rightEye : List Point
  nose : List Point
  mouth : List Point
deriving DecidableEq

/-- One detector result: bounding box plus landmarks. -/
structure Detection where
  box : Box
  landmarks : Landmarks
deriving DecidableEq

/-- An `ImageData`-like pixel buffer: `data` maps the flat RGBA byte index
`(y * width + x) * 4 + c` to a byte value. -/
structure ImageData where
  width : ℕ
  height : ℕ
  data : ℕ → ℕ

/-- `cropToPassportSize` geometry: output canvas size and the source
sampling rectangle passed to `drawImage`. -/
structure CropResult where
  canvasWidth : ℤ
  canvasHeight : ℤ
  srcX : ℚ
  srcY : ℚ
  srcWidth : ℚ
  srcHeight : ℚ
deriving DecidableEq

/-- Geometry of `cropToPassportSize(img, faceData)`: the 3:4 frame around
the detected face, with negative crop origins clamped by `Math.max(0, ·)`
in the `drawImage` call. -/
def cropToPassportSize (faceData : Box) : CropResult :=
  let targetR : ℚ := 3 / 4
  let faceHeight := faceData.height
  let frameHeight := faceHeight * 1.6
  let frameWidth := frameHeight * targetR
  let faceCenterX := faceData.x + faceData.width / 2
  let faceCenterY := faceData.y + faceData.height / 2
  let cropX := faceCenterX - frameWidth / 2
  let cropY := faceCenterY - frameHeight * 0.4
  ⟨jsRound frameWidth, jsRound frameHeight, max 0 cropX, max 0 cropY, frameWidth, frameHeight⟩

/-- Geometry of `applyWhiteBackgroundAndResize(img)`: fixed 3×4 cm canvas
at 300 DPI, uniform scale, centered placement. -/
structure ResizeResult where
  canvasWidth : ℤ
  canvasHeight : ℤ
  scale : ℚ
  drawX : ℚ
  drawY : ℚ
  scaledWidth : ℚ
  scaledHeight : ℚ
deriving DecidableEq

/-- `applyWhiteBackgroundAndResize` geometry as a function of the input
image dimensions. -/
def applyWhiteBackgroundAndResize (imgWidth imgHeight : ℚ) : ResizeResult :=
  let canvasWidth := jsRound (3 * CM_TO_INCH * DPI)
  let canvasHeight := jsRound (4 * CM_TO_INCH * DPI)
  let scale := min ((canvasWidth : ℚ) / imgWidth) ((canvasHeight : ℚ) / imgHeight)
  let scaledWidth := imgWidth * scale
  let scaledHeight := imgHeight * scale
  ⟨canvasWidth, canvasHeight, scale,
   ((canvasWidth : ℚ) - scaledWidth) / 2, ((canvasHeight : ℚ) - scaledHeight) / 2,
   scaledWidth, scaledHeight⟩

/-- Geometry of the A4 sheet layout (`generateA4Layout`). -/
structure A4Layout where
  canvasWidth : ℤ
  canvasHeight : ℤ
  photoWidthPx : ℤ
  photoHeightPx : ℤ
  marginPx : ℤ
  spacingPx : ℤ
  cols : ℕ
  rows : ℕ
  cellX : ℕ → ℚ
  cellY : ℕ → ℚ

/-- `generateA4Layout` raster geometry: 210×297 mm canvas at 300 DPI,
2×3 grid of 30×40 mm photos, 20 mm margin, 15 mm spacing. -/
def generateA4Layout : A4Layout :=
  let a4WidthMM : ℚ := 210
  let a4HeightMM : ℚ := 297
  let canvasWidth := jsRound (a4WidthMM * MM_TO_INCH * DPI)
  let canvasHeight := jsRound (a4HeightMM * MM_TO_INCH * DPI)
  let photoWidthPx := jsRound (30 * MM_TO_INCH * DPI)
  let photoHeightPx := jsRound (40 * MM_TO_INCH * DPI)
  let marginPx := jsRound (20 * MM_TO_INCH * DPI)
  let spacingPx := jsRound (15 * MM_TO_INCH * DPI)
  ⟨canvasWidth, canvasHeight, photoWidthPx, photoHeightPx, marginPx, spacingPx, 2, 3,
   fun col => (marginPx : ℚ) + (col : ℚ) * ((photoWidthPx : ℚ) + (spacingPx : ℚ)),
   fun row => (marginPx : ℚ) + (row : ℚ) * ((photoHeightPx : ℚ) + (spacingPx : ℚ))⟩

/-- Geometry of the 10×15 cm sheet layout (`generate10x15Layout`). -/
structure Layout10x15 where
  canvasWidth : ℤ
  canvasHeight : ℤ
  photoWidthPx : ℤ
  photoHeightPx : ℤ
  spacingPx : ℤ
  totalGridWidth : ℤ
  totalGridHeight : ℤ
  marginX : ℚ
  marginY : ℚ
  cols : ℕ
  rows : ℕ
  cellX : ℕ → ℚ
  cellY : ℕ → ℚ

/-- `generate10x15Layout` raster geometry: 100×150 mm canvas at 300 DPI,
3×3 grid of 30×40 mm photos, 5 mm spacing, margins computed to center the
grid on each axis. -/
def generate10x15Layout : Layout10x15 :=
  let paperWidthMM : ℚ := 100
  let paperHeightMM : ℚ := 150
  let canvasWidth := jsRound (paperWidthMM * MM_TO_INCH * DPI)
  let canvasHeight := jsRound (paperHeightMM * MM_TO_INCH * DPI)
  let photoWidthPx := jsRound (30 * MM_TO_INCH * DPI)
  let photoHeightPx := jsRound (40 * MM_TO_INCH * DPI)
  let cols : ℕ := 3
  let rows : ℕ := 3
  let spacingPx := jsRound (5 * MM_TO_INCH * DPI)
  let totalGridWidth := (cols : ℤ) * photoWidthPx + ((cols : ℤ) - 1) * spacingPx
  let totalGridHeight := (rows : ℤ) * photoHeightPx + ((rows : ℤ) - 1) * spacingPx
  let marginX : ℚ := ((canvasWidth : ℚ) - (totalGridWidth : ℚ)) / 2
  let marginY : ℚ := ((canvasHeight : ℚ) - (totalGridHeight : ℚ)) / 2
  ⟨canvasWidth, canvasHeight, photoWidthPx, photoHeightPx, spacingPx,
   totalGridWidth, totalGridHeight, marginX, marginY, cols, rows,
   fun col => marginX + (col : ℚ) * ((photoWidthPx : ℚ) + (spacingPx : ℚ)),
   fun row => marginY + (row : ℚ) * ((photoHeightPx : ℚ) + (spacingPx : ℚ))⟩

/-- `getCenter(points)`: centroid of a landmark group, computed as in the
source by a sum-`reduce` followed by division by the length. -/
def getCenter (points : List Point) : Point :=
  let sum := points.foldl (fun acc p => ⟨acc.x + p.x, acc.y + p.y⟩) (⟨0, 0⟩ : Point)
  ⟨sum.x / points.length, sum.y / points.length⟩

open Classical in
/-- JS `Math.atan2(y, x)` over the reals (range `(-π, π]`; the `±0`
distinctions of IEEE floats do not arise over `ℝ`). -/
noncomputable def atan2 (y x : ℝ) : ℝ :=
  if 0 < x then Real.arctan (y / x)
  else if x < 0 then
    (if 0 ≤ y then Real.arctan (y / x) + Real.pi else Real.arctan (y / x) - Real.pi)
  else if 0 < y then Real.pi / 2
  else if y < 0 then -(Real.pi / 2)
  else 0

/-- Result of `calculateFaceAngles`: yaw stays rational, roll involves
`Math.atan2` and is real-valued. -/
structure FaceAngles where
  yaw : ℚ
  roll : ℝ

/-- `calculateFaceAngles(landmarks)`: roll from the eye-centroid line via
`atan2`, yaw from the nose-tip offset against the eye midpoint. -/
noncomputable def calculateFaceAngles (landmarks : Landmarks) : FaceAngles :=
  let leftEyeCenter := getCenter landmarks.leftEye
  let rightEyeCenter := getCenter landmarks.rightEye
  let dx := rightEyeCenter.x - leftEyeCenter.x
  let dy := rightEyeCenter.y - leftEyeCenter.y
  let roll := atan2 (dy : ℝ) (dx : ℝ) * (180 / Real.pi)
  let eyesCenterX := (leftEyeCenter.x + rightEyeCenter.x) / 2
  let noseX := (landmarks.nose.getD 0 pt0).x
  let faceWidth := |rightEyeCenter.x - leftEyeCenter.x|
  let noseOffset := (noseX - eyesCenterX) / faceWidth
  let yaw := noseOffset * 45
  ⟨yaw, roll⟩

/-- `checkEyesVisible(landmarks)`: both eye aspect ratios must exceed 0.15. -/
def checkEyesVisible (landmarks : Landmarks) : Bool :=
  let leftEye := landmarks.leftEye
  let rightEye := landmarks.rightEye
  let leftEyeHeight := |(leftEye.getD 1 pt0).y - (leftEye.getD 5 pt0).y|
  let rightEyeHeight := |(rightEye.getD 1 pt0).y - (rightEye.getD 5 pt0).y|
  let leftEyeWidth := |(leftEye.getD 3 pt0).x - (leftEye.getD 0 pt0).x|
  let rightEyeWidth := |(rightEye.getD 3 pt0).x - (rightEye.getD 0 pt0).x|
  let leftEAR := leftEyeHeight / leftEyeWidth
  let rightEAR := rightEyeHeight / rightEyeWidth
  let minEAR : ℚ := 0.15
  decide (leftEAR > minEAR) && decide (rightEAR > minEAR)

/-- One eye's aspect ratio as the source computes it:
`|p1.y − p5.y| / |p3.x − p0.x|`. -/
def eyeEAR (eye : List Point) : ℚ :=
  |(eye.getD 1 pt0).y - (eye.getD 5 pt0).y| / |(eye.getD 3 pt0).x - (eye.getD 0 pt0).x|

/-- `checkFaceInFrame(box, imgWidth, imgHeight)`: box at least 20 px from
every edge. -/
def checkFaceInFrame (box : Box) (imgWidth imgHeight : ℚ) : Bool :=
  let margin : ℚ := 20
  decide (box.x ≥ margin ∧ box.y ≥ margin ∧
    box.x + box.width ≤ imgWidth - margin ∧ box.y + box.height ≤ imgHeight - margin)

/-- `checkNeutralExpression(landmarks)`: mouth aspect ratio below 0.35. -/
def checkNeutralExpression (landmarks : Landmarks) : Bool :=
  let mouth := landmarks.mouth
  let mouthHeight := |(mouth.getD 14 pt0).y - (mouth.getD 18 pt0).y|
  let mouthWidth := |(mouth.getD 12 pt0).x - (mouth.getD 16 pt0).x|
  let mouthAR := mouthHeight / mouthWidth
  decide (mouthAR < 0.35)

/-- Idealized `Number.toFixed(1)` on an exact rational (round to one
decimal, ties toward `+∞`, as the ECMAScript algorithm picks the larger
candidate). -/
def toFixed1 (q : ℚ) : String :=
  let n := jsRound (q * 10)
  (if n < 0 then "-" else "") ++ toString (n.natAbs / 10) ++ "." ++ toString (n.natAbs % 10)

open Classical in
/-- Idealized `Number.toFixed(1)` for the real-valued roll angle. -/
noncomputable def toFixed1R (r : ℝ) : String :=
  let n := Int.floor (r * 10 + 1/2)
  (if n < 0 then "-" else "") ++ toString (n.natAbs / 10) ++ "." ++ toString (n.natAbs % 10)

/-- Idealized `Number.toFixed(0)`. -/
def toFixed0 (q : ℚ) : String :=
  let n := jsRound q
  (if n < 0 then "-" else "") ++ toString n.natAbs

/-- One entry of the validation report: `{passed, message, note?}`. -/
structure ValidationCheck where
  passed : Bool
  message : String
  note : Option String
deriving DecidableEq

/-- The `faceData` attached to a one-face report:
`{x, y, width, height, landmarks}`. -/
structure FaceData where
  x : ℚ
  y : ℚ
  width : ℚ
  height : ℚ
  landmarks : Landmarks
deriving DecidableEq

/-- The validation report.  The JS `checks` object is populated
dynamically; each possible key is modelled as an `Option` field, `none`
meaning the key is absent from the report. -/
structure ValidationResult where
  isValid : Bool
  faceDetected : Option ValidationCheck
  faceFrontal : Option ValidationCheck
  eyesVisible : Option ValidationCheck
  faceInFrame : Option ValidationCheck
  headSize : Option ValidationCheck
  expression : Option ValidationCheck
  glassesCheck : Option ValidationCheck
  faceData : Option FaceData
deriving DecidableEq

open Classical in
/-- Check 2 of `validatePhoto`: face frontal iff `|yaw| ≤ 15` and
`|roll| ≤ 15` degrees. -/
noncomputable def faceFrontalCheck (landmarks : Landmarks) : ValidationCheck :=
  let angles := calculateFaceAngles landmarks
  let maxYaw : ℚ := 15
  let maxRoll : ℝ := 15
  if |angles.yaw| > maxYaw ∨ |angles.roll| > maxRoll then
    ⟨false, "Face not frontal enough (yaw: " ++ toFixed1 angles.yaw ++ "°, roll: "
      ++ toFixed1R angles.roll ++ "°)", none⟩
  else
    ⟨true, "Face is frontal (yaw: " ++ toFixed1 angles.yaw ++ "°, roll: "
      ++ toFixed1R angles.roll ++ "°) ✓", none⟩

/-- Check 3 of `validatePhoto`. -/
def eyesVisibleCheck (landmarks : Landmarks) : ValidationCheck :=
  let eyesOk := checkEyesVisible landmarks
  ⟨eyesOk, if eyesOk then "Both eyes clearly visible ✓"
           else "Eyes not clearly visible or closed", none⟩

/-- Check 4 of `validatePhoto`. -/
def faceInFrameCheck (box : Box) (imgWidth imgHeight : ℚ) : ValidationCheck :=
  let fullyInFrame := checkFaceInFrame box imgWidth imgHeight
  ⟨fullyInFrame, if fullyInFrame then "Face fully contained in frame ✓"
                 else "Face is cut off or too close to edges", none⟩

/-- Check 5 of `validatePhoto`: head height between 50% and 75% of the
image height. -/
def headSizeCheck (box : Box) (imgHeight : ℚ) : ValidationCheck :=
  let sizeR := box.height / imgHeight
  let minR : ℚ := 0.5
  let maxR : ℚ := 0.75
  if sizeR < minR ∨ sizeR > maxR then
    ⟨false, "Head size " ++ (if sizeR < minR then "too small" else "too large")
      ++ " (" ++ toFixed0 (sizeR * 100) ++ "% of frame)", none⟩
  else
    ⟨true, "Head size appropriate (" ++ toFixed0 (sizeR * 100) ++ "% of frame) ✓", none⟩

/-- Check 6 of `validatePhoto`. -/
def expressionCheck (landmarks : Landmarks) : ValidationCheck :=
  let neutral := checkNeutralExpression landmarks
  ⟨neutral, if neutral then "Expression appears neutral ✓"
            else "Expression may not be neutral - mouth appears open", none⟩

/-- Check 7 of `validatePhoto`: always passes, with an advisory note. -/
def glassesCheckVal : ValidationCheck :=
  ⟨true, "Manual verification required",
   some "LIMITATION: Automated glasses detection not implemented. If wearing glasses, please ensure no glare on lenses."⟩

/-- `validatePhoto` on the detector's results: check 1 on the face count;
when exactly one face is found, checks 2–7 are run and `faceData` is
attached; `isValid` is the conjunction of all populated checks. -/
noncomputable def validatePhoto (detections : List Detection)
    (imgWidth imgHeight : ℚ) : ValidationResult :=
  match detections with
  | [] =>
      ⟨false, some ⟨false, "No face detected in the image", none⟩,
       none, none, none, none, none, none, none⟩
  | [detection] =>
      let box := detection.box
      let landmarks := detection.landmarks
      let c2 := faceFrontalCheck landmarks
      let c3 := eyesVisibleCheck landmarks
      let c4 := faceInFrameCheck box imgWidth imgHeight
      let c5 := headSizeCheck box imgHeight
      let c6 := expressionCheck landmarks
      ⟨c2.passed && c3.passed && c4.passed && c5.passed && c6.passed,
       some ⟨true, "Single face detected ✓", none⟩,
       some c2, some c3, some c4, some c5, some c6, some glassesCheckVal,
       some ⟨box.x, box.y, box.width, box.height, landmarks⟩⟩
  | _ =>
      ⟨false, some ⟨false, "Multiple faces detected (" ++ toString detections.length
         ++ "). Only one person allowed.", none⟩,
       none, none, none, none, none, none, none⟩

/-- `const sharpenAmount = 0.2`. -/
def sharpenAmount : ℚ := 0.2

/-- `applySharpeningFilter(imageData)`: unsharp mask on the RGB channels of
every interior pixel, alpha copied on interior pixels.  The output buffer
is a fresh `new ImageData(width, height)`, i.e. all-zero before the loop
writes; the loop never writes border pixels. -/
def applySharpeningFilter (imageData : ImageData) : ImageData :=
  let data := imageData.data
  let width := imageData.width
  let height := imageData.height
  let outData : ℕ → ℕ := fun i =>
    let x := (i / 4) % width
    let y := (i / 4) / width
    let c := i % 4
    if 1 ≤ y ∧ y < height - 1 ∧ 1 ≤ x ∧ x < width - 1 then
      let idx := (y * width + x) * 4
      if c < 3 then
        let center : ℚ := data (idx + c)
        let above : ℚ := data (((y - 1) * width + x) * 4 + c)
        let below : ℚ := data (((y + 1) * width + x) * 4 + c)
        let left : ℚ := data ((y * width + (x - 1)) * 4 + c)
        let right : ℚ := data ((y * width + (x + 1)) * 4 + c)
        let average := (above + below + left + right) / 4
        let sharpened := center + (center - average) * sharpenAmount
        toUint8Clamp (max 0 (min 255 sharpened))
      else data (idx + 3)
    else 0
  ⟨width, height, outData⟩

/-- The contrast factor `259·(c·255 + 255) / (255·(259 − c·255))` computed
by `applyContrastAdjustment`. -/
def contrastFactor (contrast : ℚ) : ℚ :=
  (259 * (contrast * 255 + 255)) / (255 * (259 - contrast * 255))

/-- `applyContrastAdjustment(imageData, contrast)`: per RGB channel,
`clamp(factor·(value − 128) + 128, 0, 255)`; alpha bytes untouched. -/
def applyContrastAdjustment (imageData : ImageData) (contrast : ℚ) : ImageData :=
  let factor := contrastFactor contrast
  ⟨imageData.width, imageData.height, fun i =>
    if i % 4 < 3 then
      let value : ℚ := imageData.data i
      let adjusted := factor * (value - 128) + 128
      toUint8Clamp (max 0 (min 255 adjusted))
    else imageData.data i⟩

/-- `applyOptimizations(canvas)`: sharpening followed by contrast
adjustment with the contrast parameter fixed at 1.1. -/
def applyOptimizations (imageData : ImageData) : ImageData :=
  applyContrastAdjustment (applySharpeningFilter imageData) 1.1

/-- Scale a landmark point by `k` (used to state EAR scale-invariance). -/
def scalePoint (k : ℚ) (p : Point) : Point := ⟨k * p.x, k * p.y⟩

/-- Scale every landmark coordinate by `k`. -/
def scaleLandmarks (k : ℚ) (lm : Landmarks) : Landmarks :=
  ⟨lm.leftEye.map (scalePoint k), lm.rightEye.map (scalePoint k),
   lm.nose.map (scalePoint k), lm.mouth.map (scalePoint k)⟩

/-! ### Helper lemmas -/

lemma jsRound_eq (q : ℚ) (n : ℤ) (h1 : (n : ℚ) ≤ q + 1/2) (h2 : q + 1/2 < n + 1) :
    jsRound q = n := by
  unfold jsRound
  exact Int.floor_eq_iff.mpr ⟨h1, h2⟩

lemma jsRound_cm3 : jsRound (3 * CM_TO_INCH * DPI) = 354 :=
  jsRound_eq _ _ (by norm_num [CM_TO_INCH, DPI]) (by norm_num [CM_TO_INCH, DPI])

lemma jsRound_cm4 : jsRound (4 * CM_TO_INCH * DPI) = 472 :=
  jsRound_eq _ _ (by norm_num [CM_TO_INCH, DPI]) (by norm_num [CM_TO_INCH, DPI])

lemma jsRound_mm210 : jsRound (210 * MM_TO_INCH * DPI) = 2480 :=
  jsRound_eq _ _ (by norm_num [MM_TO_INCH, DPI]) (by norm_num [MM_TO_INCH, DPI])

lemma jsRound_mm297 : jsRound (297 * MM_TO_INCH * DPI) = 3508 :=
  jsRound_eq _ _ (by norm_num [MM_TO_INCH, DPI]) (by norm_num [MM_TO_INCH, DPI])

lemma jsRound_mm100 : jsRound (100 * MM_TO_INCH * DPI) = 1181 :=
  jsRound_eq _ _ (by norm_num [MM_TO_INCH, DPI]) (by norm_num [MM_TO_INCH, DPI])

lemma jsRound_mm150 : jsRound (150 * MM_TO_INCH * DPI) = 1772 :=
  jsRound_eq _ _ (by norm_num [MM_TO_INCH, DPI]) (by norm_num [MM_TO_INCH, DPI])

lemma jsRound_mm30 : jsRound (30 * MM_TO_INCH * DPI) = 354 :=
  jsRound_eq _ _ (by norm_num [MM_TO_INCH, DPI]) (by norm_num [MM_TO_INCH, DPI])

lemma jsRound_mm40 : jsRound (40 * MM_TO_INCH * DPI) = 472 :=
  jsRound_eq _ _ (by norm_num [MM_TO_INCH, DPI]) (by norm_num [MM_TO_INCH, DPI])

lemma jsRound_mm5 : jsRound (5 * MM_TO_INCH * DPI) = 59 :=
  jsRound_eq _ _ (by norm_num [MM_TO_INCH, DPI]) (by norm_num [MM_TO_INCH, DPI])

lemma floor_255 : Int.floor (255 : ℚ) = 255 :=
  Int.floor_eq_iff.mpr ⟨by norm_num, by norm_num⟩

lemma floor_0 : Int.floor (0 : ℚ) = 0 :=
  Int.floor_eq_iff.mpr ⟨by norm_num, by norm_num⟩

lemma toUint8Clamp_255 : toUint8Clamp 255 = 255 := by
  unfold toUint8Clamp roundTiesToEven
  rw [min_self, max_eq_right (by norm_num : (0 : ℚ) ≤ 255), floor_255]
  norm_num
  decide

lemma toUint8Clamp_0 : toUint8Clamp 0 = 0 := by
  unfold toUint8Clamp roundTiesToEven
  rw [min_eq_right (by norm_num : (0 : ℚ) ≤ 255), max_self, floor_0]
  norm_num

lemma toUint8Clamp_big {q : ℚ} (h : 255 ≤ q) : toUint8Clamp (max 0 (min 255 q)) = 255 := by
  rw [min_eq_left h, max_eq_right (by norm_num : (0 : ℚ) ≤ 255)]
  exact toUint8Clamp_255

lemma toUint8Clamp_small {q : ℚ} (h : q ≤ 0) : toUint8Clamp (max 0 (min 255 q)) = 0 := by
  rw [min_eq_right (h.trans (by norm_num)), max_eq_left h]
  exact toUint8Clamp_0

lemma getD_map_scalePoint (k : ℚ) (l : List Point) (i : ℕ) :
    (l.map (scalePoint k)).getD i pt0 = scalePoint k (l.getD i pt0) := by
  have h0 : scalePoint k pt0 = pt0 := by simp [scalePoint, pt0]
  conv_lhs => rw [← h0]
  rw [List.getD_map]

lemma eyeEAR_scale (k : ℚ) (hk : k ≠ 0) (eye : List Point) :
    eyeEAR (eye.map (scalePoint k)) = eyeEAR eye := by
  unfold eyeEAR
  rw [getD_map_scalePoint, getD_map_scalePoint, getD_map_scalePoint, getD_map_scalePoint]
  simp only [scalePoint]
  rw [← mul_sub, ← mul_sub, abs_mul, abs_mul]
  exact mul_div_mul_left _ _ (abs_ne_zero.mpr hk)

/-! ### Claim theorems -/

/-- C1: when the detector returns zero faces or more than one face,
`validatePhoto` populates only the `faceDetected` check — failed, with the
no-face message or the counted multiple-face message — sets
`isValid = false`, attaches no `faceData`, and leaves checks 2–7 absent. -/
theorem validatePhoto_nonSingleFace (dets : List Detection) (w h : ℚ)
    (hn : dets.length = 0 ∨ 1 < dets.length) :
    (validatePhoto dets w h).faceDetected = some ⟨false,
      (if dets.length = 0 then "No face detected in the image"
       else "Multiple faces detected (" ++ toString dets.length
         ++ "). Only one person allowed."), none⟩ ∧
    (validatePhoto dets w h).isValid = false ∧
    (validatePhoto dets w h).faceData = none ∧
    (validatePhoto dets w h).faceFrontal = none ∧
    (validatePhoto dets w h).eyesVisible = none ∧
    (validatePhoto dets w h).faceInFrame = none ∧
    (validatePhoto dets w h).headSize = none ∧
    (validatePhoto dets w h).expression = none ∧
    (validatePhoto dets w h).glassesCheck = none := by
  rcases dets with _ | ⟨d1, _ | ⟨d2, rest⟩⟩
  · exact ⟨rfl, rfl, rfl, rfl, rfl, rfl, rfl, rfl, rfl⟩
  · simp at hn
  · refine ⟨?_, rfl, rfl, rfl, rfl, rfl, rfl, rfl, rfl⟩
    rw [if_neg (by simp)]
    rfl

/-- Two-face detector input used to witness C1. -/
def dEx : Detection := ⟨⟨0, 0, 10, 10⟩, ⟨[], [], [], []⟩⟩

theorem validatePhoto_nonSingleFace_witness :
    (validatePhoto [dEx, dEx] 100 100).faceDetected =
      some ⟨false, "Multiple faces detected (2). Only one person allowed.", none⟩ ∧
    (validatePhoto [dEx, dEx] 100 100).isValid = false ∧
    (validatePhoto [dEx, dEx] 100 100).faceData = none ∧
    (validatePhoto [dEx, dEx] 100 100).headSize = none := by
  have h := validatePhoto_nonSingleFace [dEx, dEx] 100 100 (Or.inr (by norm_num))
  refine ⟨?_, h.2.1, h.2.2.1, h.2.2.2.2.2.2.1⟩
  rw [h.1]
  rfl

/-- C2 counterexample: on a 3×3 all-255 image the sharpening pass does not
leave the border pixel at flat index 0 equal to the input (the freshly
allocated output buffer is zero-initialized and the loop never writes the
border). -/
theorem sharpen_border_not_preserved :
    (applySharpeningFilter ⟨3, 3, fun _ => 255⟩).data 0 ≠
      (⟨3, 3, fun _ => 255⟩ : ImageData).data 0 := by
  decide

/-- C2 (amended): the sharpening pass writes only interior pixels; every
byte of the outermost 1-pixel border of the output is 0 (transparent
black) regardless of the input, and on interior pixels the alpha byte is
copied from the input. -/
theorem sharpen_border_zero (img : ImageData) (i : ℕ) :
    (¬ (1 ≤ (i / 4) / img.width ∧ (i / 4) / img.width < img.height - 1 ∧
        1 ≤ (i / 4) % img.width ∧ (i / 4) % img.width < img.width - 1) →
      (applySharpeningFilter img).data i = 0) ∧
    ((1 ≤ (i / 4) / img.width ∧ (i / 4) / img.width < img.height - 1 ∧
        1 ≤ (i / 4) % img.width ∧ (i / 4) % img.width < img.width - 1) →
      i % 4 = 3 → (applySharpeningFilter img).data i = img.data i) := by
  constructor
  · intro hb
    simp only [applySharpeningFilter]
    rw [if_neg hb]
  · intro hin h3
    simp only [applySharpeningFilter]
    rw [if_pos hin, h3, if_neg (by omega)]
    have hw : (i / 4) / img.width * img.width + (i / 4) % img.width = i / 4 := by
      rw [Nat.mul_comm]
      exact Nat.div_add_mod (i / 4) img.width
    congr 1
    rw [hw]
    omega

theorem sharpen_border_zero_witness :
    (applySharpeningFilter ⟨3, 3, fun _ => 255⟩).data 3 = 0 :=
  (sharpen_border_zero ⟨3, 3, fun _ => 255⟩ 3).1 (by decide)

/-- C3: every produced raster has deterministic pixel dimensions from the
physical size and the fixed 300 DPI constant: the processed-photo canvas is
354×472 px whatever the input image, the A4 sheet is 2480×3508 px, and the
10×15 cm sheet is 1181×1772 px, matching the rounding formulas. -/
theorem raster_dimensions_deterministic :
    (∀ w h : ℚ, (applyWhiteBackgroundAndResize w h).canvasWidth = 354 ∧
       (applyWhiteBackgroundAndResize w h).canvasHeight = 472) ∧
    jsRound (3 * CM_TO_INCH * DPI) = 354 ∧ jsRound (4 * CM_TO_INCH * DPI) = 472 ∧
    generateA4Layout.canvasWidth = 2480 ∧ generateA4Layout.canvasHeight = 3508 ∧
    jsRound (210 * MM_TO_INCH * DPI) = 2480 ∧ jsRound (297 * MM_TO_INCH * DPI) = 3508 ∧
    generate10x15Layout.canvasWidth = 1181 ∧ generate10x15Layout.canvasHeight = 1772 ∧
    jsRound (100 * MM_TO_INCH * DPI) = 1181 ∧ jsRound (150 * MM_TO_INCH * DPI) = 1772 := by
  exact ⟨fun w h => ⟨jsRound_cm3, jsRound_cm4⟩, jsRound_cm3, jsRound_cm4,
    jsRound_mm210, jsRound_mm297, jsRound_mm210, jsRound_mm297,
    jsRound_mm100, jsRound_mm150, jsRound_mm100, jsRound_mm150⟩

/-- C4: the crop stage outputs a canvas of exactly
`round(frameWidth) × round(frameHeight)` with `frameHeight = box.height × 1.6`
and `frameWidth = frameHeight × 3/4`, sampling the source from
`(max(0, faceCenterX − frameWidth/2), max(0, faceCenterY − frameHeight × 0.4))`
with the face center at the box center; negative origins are clamped to 0
while the sampled width and height stay `frameWidth × frameHeight`
(no re-centering). -/
theorem crop_geometry (box : Box) :
    (cropToPassportSize box).canvasWidth = jsRound (box.height * 1.6 * (3 / 4)) ∧
    (cropToPassportSize box).canvasHeight = jsRound (box.height * 1.6) ∧
    (cropToPassportSize box).srcX =
      max 0 (box.x + box.width / 2 - box.height * 1.6 * (3 / 4) / 2) ∧
    (cropToPassportSize box).srcY =
      max 0 (box.y + box.height / 2 - box.height * 1.6 * 0.4) ∧
    (cropToPassportSize box).srcWidth = box.height * 1.6 * (3 / 4) ∧
    (cropToPassportSize box).srcHeight = box.height * 1.6 :=
  ⟨rfl, rfl, rfl, rfl, rfl, rfl⟩

/-- C5: with exactly one detected face, the `headSize` check passes iff
`box.height / image.height` lies in the closed interval `[0.50, 0.75]`. -/
theorem headSize_pass_iff (det : Detection) (w h : ℚ) :
    (validatePhoto [det] w h).headSize.map ValidationCheck.passed = some true ↔
      (0.5 ≤ det.box.height / h ∧ det.box.height / h ≤ 0.75) := by
  have hrw : (validatePhoto [det] w h).headSize = some (headSizeCheck det.box h) := rfl
  rw [hrw]
  simp only [headSizeCheck]
  by_cases hc : det.box.height / h < 0.5 ∨ det.box.height / h > 0.75
  · rw [if_pos hc]
    simp only [Option.map_some', Option.some.injEq]
    constructor
    · intro hfalse; exact (Bool.false_ne_true hfalse).elim
    · rintro ⟨h1, h2⟩; exfalso; rcases hc with hc | hc <;> linarith
  · rw [if_neg hc]
    push_neg at hc
    simp only [Option.map_some', Option.some.injEq]
    exact ⟨fun _ => ⟨hc.1, hc.2⟩, fun _ => by simp⟩

/-- C6: whenever exactly one face is detected, `faceData` is attached as
`{x, y, width, height, landmarks}` of that face, whatever the outcome of
checks 2–7. -/
theorem faceData_attached_single (det : Detection) (w h : ℚ) :
    (validatePhoto [det] w h).faceData =
      some ⟨det.box.x, det.box.y, det.box.width, det.box.height, det.landmarks⟩ :=
  rfl

/-- C7: the roll angle equals `atan2(dy, dx) × 180/π` for the difference
of the right- and left-eye centroids; in particular centroids at equal
height with the right one to the right give roll 0°, and centroids
differing by exactly 100 in both coordinates give roll 45°. -/
theorem roll_from_eye_centroids (lm : Landmarks) :
    (calculateFaceAngles lm).roll =
      atan2 (((getCenter lm.rightEye).y - (getCenter lm.leftEye).y : ℚ) : ℝ)
        (((getCenter lm.rightEye).x - (getCenter lm.leftEye).x : ℚ) : ℝ) * (180 / Real.pi) ∧
    ((getCenter lm.rightEye).y - (getCenter lm.leftEye).y = 0 →
      0 < (getCenter lm.rightEye).x - (getCenter lm.leftEye).x →
      (calculateFaceAngles lm).roll = 0) ∧
    ((getCenter lm.rightEye).x - (getCenter lm.leftEye).x = 100 →
      (getCenter lm.rightEye).y - (getCenter lm.leftEye).y = 100 →
      (calculateFaceAngles lm).roll = 45) := by
  have hroll : (calculateFaceAngles lm).roll =
      atan2 (((getCenter lm.rightEye).y - (getCenter lm.leftEye).y : ℚ) : ℝ)
        (((getCenter lm.rightEye).x - (getCenter lm.leftEye).x : ℚ) : ℝ)
        * (180 / Real.pi) := rfl
  refine ⟨hroll, ?_, ?_⟩
  · intro hdy hdx
    rw [hroll, hdy]
    rw [show ((0 : ℚ) : ℝ) = 0 from by push_cast; ring]
    rw [atan2, if_pos (by exact_mod_cast hdx)]
    rw [zero_div, Real.arctan_zero, zero_mul]
  · intro hdx hdy
    rw [hroll, hdx, hdy]
    rw [show ((100 : ℚ) : ℝ) = 100 from by push_cast; ring]
    rw [atan2, if_pos (by norm_num)]
    rw [show (100 : ℝ) / 100 = 1 from by norm_num, Real.arctan_one]
    have hpi : Real.pi ≠ 0 := Real.pi_ne_zero
    field_simp
    ring

/-- Synthetic landmark set with eye centroids (0,0) and (100,100),
witnessing C7. -/
def lmRoll45 : Landmarks :=
  ⟨[⟨0, 0⟩, ⟨0, 0⟩, ⟨0, 0⟩, ⟨0, 0⟩, ⟨0, 0⟩, ⟨0, 0⟩],
   [⟨100, 100⟩, ⟨100, 100⟩, ⟨100, 100⟩, ⟨100, 100⟩, ⟨100, 100⟩, ⟨100, 100⟩],
   [⟨0, 0⟩], []⟩

theorem roll_from_eye_centroids_witness :
    (calculateFaceAngles lmRoll45).roll = 45 :=
  (roll_from_eye_centroids lmRoll45).2.2
    (by norm_num [getCenter, lmRoll45, List.foldl])
    (by norm_num [getCenter, lmRoll45, List.foldl])

/-- C8: the eye aspect ratio is invariant under scaling all landmark
coordinates by any `k ≠ 0`, and hence so is the `eyesVisible` verdict. -/
theorem ear_scale_invariant (lm : Landmarks) (k : ℚ) (hk : k ≠ 0)
    (_hl : (lm.leftEye.getD 3 pt0).x - (lm.leftEye.getD 0 pt0).x ≠ 0)
    (_hr : (lm.rightEye.getD 3 pt0).x - (lm.rightEye.getD 0 pt0).x ≠ 0) :
    eyeEAR (scaleLandmarks k lm).leftEye = eyeEAR lm.leftEye ∧
    eyeEAR (scaleLandmarks k lm).rightEye = eyeEAR lm.rightEye ∧
    checkEyesVisible (scaleLandmarks k lm) = checkEyesVisible lm := by
  have h1 : eyeEAR (scaleLandmarks k lm).leftEye = eyeEAR lm.leftEye :=
    eyeEAR_scale k hk lm.leftEye
  have h2 : eyeEAR (scaleLandmarks k lm).rightEye = eyeEAR lm.rightEye :=
    eyeEAR_scale k hk lm.rightEye
  refine ⟨h1, h2, ?_⟩
  show (decide (eyeEAR (scaleLandmarks k lm).leftEye > 0.15) &&
        decide (eyeEAR (scaleLandmarks k lm).rightEye > 0.15)) =
       (decide (eyeEAR lm.leftEye > 0.15) && decide (eyeEAR lm.rightEye > 0.15))
  rw [h1, h2]

/-- Synthetic open-eye landmark set used to witness C8. -/
def lmEyes : Landmarks :=
  ⟨[⟨0, 0⟩, ⟨1, 3⟩, ⟨2, 3⟩, ⟨4, 0⟩, ⟨3, -3⟩, ⟨1, -3⟩],
   [⟨10, 0⟩, ⟨11, 3⟩, ⟨12, 3⟩, ⟨14, 0⟩, ⟨13, -3⟩, ⟨11, -3⟩], [], []⟩

theorem ear_scale_invariant_witness :
    eyeEAR (scaleLandmarks 2 lmEyes).leftEye = eyeEAR lmEyes.leftEye ∧
    checkEyesVisible (scaleLandmarks 2 lmEyes) = checkEyesVisible lmEyes := by
  have h := ear_scale_invariant lmEyes 2 (by norm_num)
    (by norm_num [lmEyes, pt0, List.getD])
    (by norm_num [lmEyes, pt0, List.getD])
  exact ⟨h.1, h.2.2⟩

/-- C9: at the fixed contrast parameter 1.1 the computed factor is
negative (within 0.01 of −25.3), so the stage inverts: any RGB byte at
most 122 (in particular 0) is driven to 255, any RGB byte at least 134
(in particular 255) is driven to 0, and alpha bytes are unchanged;
`applyOptimizations` invokes the stage with contrast 1.1. -/
theorem contrast_at_1_1_inverts :
    contrastFactor 1.1 < 0 ∧
    |contrastFactor 1.1 + 25.3| < 1 / 100 ∧
    (∀ img : ImageData, applyOptimizations img =
      applyContrastAdjustment (applySharpeningFilter img) 1.1) ∧
    (∀ (img : ImageData) (i : ℕ),
      (i % 4 < 3 → img.data i ≤ 122 → (applyContrastAdjustment img 1.1).data i = 255) ∧
      (i % 4 < 3 → 134 ≤ img.data i → (applyContrastAdjustment img 1.1).data i = 0) ∧
      (i % 4 = 3 → (applyContrastAdjustment img 1.1).data i = img.data i)) := by
  have hf : contrastFactor 1.1 = -5439 / 215 := by norm_num [contrastFactor]
  have habs : contrastFactor 1.1 + 25.3 = 1 / 430 := by rw [hf]; norm_num
  refine ⟨by rw [hf]; norm_num, ?_, fun img => rfl, fun img i => ⟨?_, ?_, ?_⟩⟩
  · rw [habs, abs_of_pos (by norm_num : (0 : ℚ) < 1 / 430)]
    norm_num
  · intro hc hv
    have hv' : (img.data i : ℚ) ≤ 122 := by exact_mod_cast hv
    simp only [applyContrastAdjustment]
    rw [if_pos hc]
    exact toUint8Clamp_big (by rw [hf]; linarith)
  · intro hc hv
    have hv' : (134 : ℚ) ≤ (img.data i : ℚ) := by exact_mod_cast hv
    simp only [applyContrastAdjustment]
    rw [if_pos hc]
    exact toUint8Clamp_small (by rw [hf]; linarith)
  · intro hc
    simp only [applyContrastAdjustment]
    rw [if_neg (by omega)]

theorem contrast_at_1_1_inverts_witness :
    (applyContrastAdjustment ⟨1, 1, fun _ => 255⟩ 1.1).data 0 = 0 ∧
    (applyContrastAdjustment ⟨1, 1, fun _ => 0⟩ 1.1).data 0 = 255 := by
  have h1 := (contrast_at_1_1_inverts.2.2.2 ⟨1, 1, fun _ => 255⟩ 0).2.1
  have h2 := (contrast_at_1_1_inverts.2.2.2 ⟨1, 1, fun _ => 0⟩ 0).1
  exact ⟨h1 (by decide) (by decide), h2 (by decide) (by decide)⟩

/-- C10: the 10×15 cm layout's centering margins are `marginX = 0.5` px and
`marginY = 119` px, both non-negative, so all nine photo cells lie within
the 1181×1772 canvas; the grid spans 1180 of the 1181 horizontal pixels
(marginX is below one pixel), with spacing 59 px. -/
theorem layout10x15_centering :
    generate10x15Layout.marginX = 1 / 2 ∧
    generate10x15Layout.marginY = 119 ∧
    0 ≤ generate10x15Layout.marginX ∧
    0 ≤ generate10x15Layout.marginY ∧
    generate10x15Layout.spacingPx = 59 ∧
    generate10x15Layout.totalGridWidth = 1180 ∧
    generate10x15Layout.canvasWidth = 1181 ∧
    generate10x15Layout.marginX < 1 ∧
    (∀ col : ℕ, col < 3 →
      0 ≤ generate10x15Layout.cellX col ∧
      generate10x15Layout.cellX col + (generate10x15Layout.photoWidthPx : ℚ) ≤
        (generate10x15Layout.canvasWidth : ℚ)) ∧
    (∀ row : ℕ, row < 3 →
      0 ≤ generate10x15Layout.cellY row ∧
      generate10x15Layout.cellY row + (generate10x15Layout.photoHeightPx : ℚ) ≤
        (generate10x15Layout.canvasHeight : ℚ)) := by
  refine ⟨?_, ?_, ?_, ?_, ?_, ?_, ?_, ?_, ?_, ?_⟩
  · simp only [generate10x15Layout, jsRound_mm100, jsRound_mm30, jsRound_mm5]
    push_cast
    norm_num
  · simp only [generate10x15Layout, jsRound_mm150, jsRound_mm40, jsRound_mm5]
    push_cast
    norm_num
  · simp only [generate10x15Layout, jsRound_mm100, jsRound_mm30, jsRound_mm5]
    push_cast
    norm_num
  · simp only [generate10x15Layout, jsRound_mm150, jsRound_mm40, jsRound_mm5]
    push_cast
    norm_num
  · simp only [generate10x15Layout]
    exact jsRound_mm5
  · simp only [generate10x15Layout, jsRound_mm30, jsRound_mm5]
    norm_num
  · simp only [generate10x15Layout]
    exact jsRound_mm100
  · simp only [generate10x15Layout, jsRound_mm100, jsRound_mm30, jsRound_mm5]
    push_cast
    norm_num
  · intro col hc
    interval_cases col <;>
      · simp only [generate10x15Layout, jsRound_mm100, jsRound_mm30, jsRound_mm5]
        push_cast
        norm_num
  · intro row hr
    interval_cases row <;>
      · simp only [generate10x15Layout, jsRound_mm100, jsRound_mm150, jsRound_mm30,
          jsRound_mm40, jsRound_mm5]
        push_cast
        norm_num

theorem layout10x15_centering_witness :
    0 ≤ generate10x15Layout.cellX 2 ∧
    generate10x15Layout.cellX 2 + (generate10x15Layout.photoWidthPx : ℚ) ≤
      (generate10x15Layout.canvasWidth : ℚ) :=
  layout10x15_centering.2.2.2.2.2.2.2.2.1 2 (by norm_num)

end PassportPhoto
